import Mathlib

/-!
# `examples/generated_code.c`: objects lowered to structs, manual allocation and a vtable pointer

The translation unit declares two structs (`Object`, `User`), one constructor per
struct, the accessor `User_get_age` and `main`.  The embedding below is a
state-passing model of that file:

* the heap maps a block address to the block's cells, one cell per struct member
  (or per array slot); a cell that was never written is `Cell.indet`;
* `malloc` consults an allocation outcome for its call number, so that every
  combination of successes and failures can be quantified over;
* `exit` and undefined behaviour are results of their own, distinct from returning.
-/

set_option linter.unusedVariables false

namespace GeneratedCode

/-! ## Values, memory and the state of a run -/

/-- Address of a heap block; `0` is the null pointer. -/
abbrev Addr := Nat

/-- The null pointer. -/
def NULL : Addr := 0

/-- Content of one memory cell (one struct member or one array slot). -/
inductive Cell where
  /-- Indeterminate: allocated by `malloc` and never written. -/
  | indet
  /-- An `int` value. -/
  | int (v : Int)
  /-- A data pointer (`void**`, `User*`, ...); `ptr 0` is the null pointer. -/
  | ptr (a : Addr)
  /-- A reference to the function with the given identifier. -/
  | fn (id : Nat)
  deriving DecidableEq, Repr

/-- Primitive memory actions of a run, in the order they happen. -/
inductive Event where
  /-- A call of `malloc` for `cells` cells, and the pointer it returned. -/
  | malloc (cells : Nat) (result : Addr)
  /-- A write of `v` to member number `idx` of the block at `block`. -/
  | store (block : Addr) (idx : Nat) (v : Cell)
  deriving DecidableEq, Repr

/-- State of a run of the program. -/
structure World where
  /-- Outcome of the `k`-th call of `malloc` (counting from 0): `true` is success. -/
  oracle : Nat → Bool
  /-- Number of `malloc` calls made so far. -/
  nalloc : Nat
  /-- The heap: the cells of each live block. -/
  heap : Addr → Option (List Cell)
  /-- Everything written to standard output so far. -/
  out : String
  /-- Everything written to standard error so far. -/
  err : String
  /-- The memory actions so far, oldest first. -/
  trace : List Event

/-- The state at program start, for given allocation outcomes. -/
def World.start (oracle : Nat → Bool) : World :=
  { oracle := oracle, nalloc := 0, heap := fun _ => none, out := "", err := "", trace := [] }

/-- Result of running a piece of the program. -/
inductive Res (α : Type) where
  /-- Control reached a `return` with value `v`. -/
  | ret (v : α) (w : World)
  /-- The program called `exit (status)` and terminated. -/
  | exit (status : Int) (w : World)
  /-- Undefined behaviour (access through an invalid pointer, read of an indeterminate value). -/
  | undefined

/-- A computation over the state of the run. -/
def Prog (α : Type) : Type := World → Res α

/-- Sequencing: `exit` and undefined behaviour cut the rest of the computation off. -/
def Prog.bind {α β : Type} (m : Prog α) (f : α → Prog β) : Prog β := fun w =>
  match m w with
  | .ret v w1 => f v w1
  | .exit s w1 => .exit s w1
  | .undefined => .undefined

instance : Monad Prog where
  pure := fun v w => .ret v w
  bind := Prog.bind

/-! ## The C library calls the file uses -/

/-- The call `malloc (n)` for a block of `cells` cells.  On failure it returns `NULL` and leaves
the heap alone; on success it returns a non-null address naming a new block whose cells are all
indeterminate. -/
def malloc (cells : Nat) : Prog Addr := fun w =>
  if w.oracle w.nalloc then
    let p : Addr := w.nalloc + 1
    .ret p { w with nalloc := w.nalloc + 1
                    heap := fun a => if a = p then some (List.replicate cells Cell.indet) else w.heap a
                    trace := w.trace ++ [Event.malloc cells p] }
  else
    .ret NULL { w with nalloc := w.nalloc + 1
                       trace := w.trace ++ [Event.malloc cells NULL] }

/-- The call `exit (status)`: never returns. -/
def exit {α : Type} (status : Int) : Prog α := fun w => .exit status w

/-- The call `fprintf (stderr, text)` with a format that has no conversion. -/
def fprintf_stderr (text : String) : Prog Unit := fun w =>
  .ret () { w with err := w.err ++ text }

/-- The call `printf ("%d\n", v)`: the decimal digits of `v`, with a minus sign when negative. -/
def printf_d (v : Int) : Prog Unit := fun w =>
  .ret () { w with out := w.out ++ (toString v ++ "\n") }

/-- Write `v` to member number `idx` of the block `p` points to. -/
def store (p : Addr) (idx : Nat) (v : Cell) : Prog Unit := fun w =>
  match w.heap p with
  | some cells =>
    if idx < cells.length then
      .ret () { w with heap := fun a => if a = p then some (cells.set idx v) else w.heap a
                       trace := w.trace ++ [Event.store p idx v] }
    else .undefined
  | none => .undefined

/-- Read member number `idx` of the block `p` points to. -/
def load (p : Addr) (idx : Nat) : Prog Cell := fun w =>
  match w.heap p with
  | some cells =>
    match cells.get? idx with
    | some c => .ret c w
    | none => .undefined
  | none => .undefined

/-- Read an `int` member; an indeterminate or ill-typed cell is undefined behaviour. -/
def load_int (p : Addr) (idx : Nat) : Prog Int := fun w =>
  match load p idx w with
  | .ret (Cell.int v) w1 => .ret v w1
  | .ret _ _ => .undefined
  | .exit s w1 => .exit s w1
  | .undefined => .undefined

/-! ## The struct declarations (lines 11-20) -/

/-- Member types that occur in the file. -/
inductive CType where
  /-- The type `void**`. -/
  | voidPtrPtr
  /-- The type `int`. -/
  | int
  deriving DecidableEq, Repr

/-- The members of `struct Object`, in declaration order (lines 11-14). -/
def Object_members : List (String × CType) :=
  [("vtable", CType.voidPtrPtr)]

/-- The members of `struct User`, in declaration order (lines 16-20). -/
def User_members : List (String × CType) :=
  [("vtable", CType.voidPtrPtr), ("age", CType.int)]

/-- Position of the member called `name` in a member list (the list's length when absent). -/
def memberIndex (members : List (String × CType)) (name : String) : Nat :=
  members.findIdx (fun m => m.1 == name)

/-- The expression `sizeof (Object)`, in cells. -/
def sizeof_Object : Nat := Object_members.length

/-- The expression `sizeof (User)`, in cells. -/
def sizeof_User : Nat := User_members.length

/-- The slot count in `malloc (sizeof (void*) * 16)` (lines 31 and 46). -/
def VTABLE_SLOTS : Nat := 16

/-! ## The functions (lines 23-63) -/

/-- The function `create_Object` (lines 23-35). -/
def create_Object (age : Int) : Prog Addr := do
  let obj ← malloc sizeof_Object
  if obj = NULL then
    fprintf_stderr "Memory allocation failed for Object\n"
    exit 1
  let vt ← malloc VTABLE_SLOTS
  store obj (memberIndex Object_members "vtable") (Cell.ptr vt)
  return obj

/-- The function `create_User` (lines 38-51). -/
def create_User (age : Int) (a : Int) : Prog Addr := do
  let obj ← malloc sizeof_User
  if obj = NULL then
    fprintf_stderr "Memory allocation failed for User\n"
    exit 1
  let vt ← malloc VTABLE_SLOTS
  store obj (memberIndex User_members "vtable") (Cell.ptr vt)
  store obj (memberIndex User_members "age") (Cell.int age)
  return obj

/-- The function `User_get_age` (lines 53-55). -/
def User_get_age (self : Addr) : Prog Int :=
  load_int self (memberIndex User_members "age")

/-- The function `main` (lines 57-63). -/
def main : Prog Int := do
  let u ← create_User 10 1
  let direct ← load_int u (memberIndex User_members "age")
  printf_d direct
  let age ← User_get_age u
  printf_d age
  return 0

/-! ## The class model behind the file -/

/-- Modelled from the spec: the class model is not part of the file.  A class has a name, an
optional base class, its own fields in declaration order and its own virtual methods. -/
structure ClassDef where
  /-- Name of the class. -/
  name : String
  /-- Name of the base class, if any. -/
  base : Option String
  /-- Fields declared directly on the class. -/
  fields : List (String × CType)
  /-- Names of the methods the class marks virtual. -/
  virtuals : List String

/-- Modelled from the spec: class `Object` of the end-to-end scenario: no base, no fields (the
comment at line 13 agrees), no methods. -/
def Object_class : ClassDef :=
  { name := "Object", base := none, fields := [], virtuals := [] }

/-- Modelled from the spec: class `User` of the end-to-end scenario: base `Object`, one field
`age: int`, no virtual method (`get_age` is a plain accessor, called directly at line 60). -/
def User_class : ClassDef :=
  { name := "User", base := some "Object", fields := [("age", CType.int)], virtuals := [] }

/-- Modelled from the spec: the resolved field list of a class is the ancestor's resolved field
list followed by the class's own fields. -/
def resolvedFields (ancestor : List (String × CType)) (c : ClassDef) : List (String × CType) :=
  ancestor ++ c.fields

/-- Modelled from the spec: the resolved virtual table starts from the ancestor's table; an own
virtual method whose name is already there keeps that slot, any other appends a slot. -/
def resolvedSlots (ancestor : List String) (c : ClassDef) : List String :=
  c.virtuals.foldl (fun table m => if m ∈ table then table else table ++ [m]) ancestor

/-- Resolved fields of `Object`. -/
def Object_fields : List (String × CType) := resolvedFields [] Object_class

/-- Resolved fields of `User`, on top of those of its base `Object`. -/
def User_fields : List (String × CType) := resolvedFields Object_fields User_class

/-- Resolved virtual table of `Object`. -/
def Object_slots : List String := resolvedSlots [] Object_class

/-- Resolved virtual table of `User`, on top of that of its base `Object`. -/
def User_slots : List String := resolvedSlots Object_slots User_class

/-- The implicit first member every struct starts with. -/
def vtableMember : String × CType := ("vtable", CType.voidPtrPtr)

/-- Whether a cell holds a defined function reference. -/
def Cell.isFn : Cell → Bool
  | Cell.fn _ => true
  | _ => false

/-! ## Auxiliary definitions for the statements -/

/-- A sample state: one `User` instance at address 1 with the given vtable cell and age 5; the
heap holds nothing else, in particular no vtable array. -/
def loneUser (vt : Cell) : World :=
  { World.start (fun _ => true) with
    heap := fun a => if a = 1 then some [vt, Cell.int 5] else none }

/-- The pointer the second `malloc` of a constructor returns, the first one having succeeded. -/
def vtablePtr (w : World) : Addr :=
  if w.oracle (w.nalloc + 1) then w.nalloc + 2 else NULL

/-! ## Symbolic execution of the constructors and of `main` -/

theorem create_Object_exit (age : Int) (w : World) (h : w.oracle w.nalloc = false) :
    create_Object age w =
      Res.exit 1 { w with nalloc := w.nalloc + 1,
                          err := w.err ++ "Memory allocation failed for Object\n",
                          trace := w.trace ++ [Event.malloc sizeof_Object NULL] } := by
  simp [create_Object, bind, Prog.bind, malloc, h, fprintf_stderr, exit]

theorem create_User_exit (age a : Int) (w : World) (h : w.oracle w.nalloc = false) :
    create_User age a w =
      Res.exit 1 { w with nalloc := w.nalloc + 1,
                          err := w.err ++ "Memory allocation failed for User\n",
                          trace := w.trace ++ [Event.malloc sizeof_User NULL] } := by
  simp [create_User, bind, Prog.bind, malloc, h, fprintf_stderr, exit]

theorem create_Object_ret (age : Int) (w : World) (h : w.oracle w.nalloc = true) :
    ∃ w1, create_Object age w = Res.ret (w.nalloc + 1) w1 ∧
      w1.heap (w.nalloc + 1) = some [Cell.ptr (vtablePtr w)] ∧
      (vtablePtr w ≠ NULL → w1.heap (vtablePtr w) = some (List.replicate VTABLE_SLOTS Cell.indet)) ∧
      w1.out = w.out ∧ w1.err = w.err ∧
      w1.trace = w.trace ++ [Event.malloc sizeof_Object (w.nalloc + 1),
        Event.malloc VTABLE_SLOTS (vtablePtr w), Event.store (w.nalloc + 1) 0 (Cell.ptr (vtablePtr w))] := by
  cases h2 : w.oracle (w.nalloc + 1) <;>
  simp [create_Object, bind, Prog.bind, malloc, h, h2, fprintf_stderr, exit, store, NULL, pure,
    sizeof_Object, Object_members, memberIndex, VTABLE_SLOTS, List.findIdx_cons, vtablePtr]

theorem create_User_ret (age a : Int) (w : World) (h : w.oracle w.nalloc = true) :
    ∃ w1, create_User age a w = Res.ret (w.nalloc + 1) w1 ∧
      w1.heap (w.nalloc + 1) = some [Cell.ptr (vtablePtr w), Cell.int age] ∧
      (vtablePtr w ≠ NULL → w1.heap (vtablePtr w) = some (List.replicate VTABLE_SLOTS Cell.indet)) ∧
      w1.out = w.out ∧ w1.err = w.err ∧
      w1.trace = w.trace ++ [Event.malloc sizeof_User (w.nalloc + 1),
        Event.malloc VTABLE_SLOTS (vtablePtr w), Event.store (w.nalloc + 1) 0 (Cell.ptr (vtablePtr w)),
        Event.store (w.nalloc + 1) 1 (Cell.int age)] := by
  cases h2 : w.oracle (w.nalloc + 1) <;>
  simp [create_User, bind, Prog.bind, malloc, h, h2, fprintf_stderr, exit, store, NULL, pure,
    sizeof_User, User_members, memberIndex, VTABLE_SLOTS, List.findIdx_cons, vtablePtr]

theorem load_int_age (w : World) (p : Addr) (vt : Cell) (v : Int)
    (h : w.heap p = some [vt, Cell.int v]) :
    load_int p (memberIndex User_members "age") w = Res.ret v w := by
  simp [load_int, load, h, memberIndex, User_members, List.findIdx_cons]

theorem main_of_create_User (w w1 : World) (u : Addr) (vt : Cell)
    (hc : create_User 10 1 w = Res.ret u w1) (hh : w1.heap u = some [vt, Cell.int 10]) :
    main w = Res.ret 0 { w1 with out := w1.out ++ "10\n10\n" } := by
  have e1 : load_int u (memberIndex User_members "age") w1 = Res.ret 10 w1 := load_int_age w1 u vt 10 hh
  have e2 : load_int u (memberIndex User_members "age") { w1 with out := w1.out ++ "10\n" }
      = Res.ret 10 { w1 with out := w1.out ++ "10\n" } := load_int_age _ u vt 10 hh
  have e3 : toString (10 : Int) ++ "\n" = "10\n" := by decide
  simp only [main, bind, Prog.bind, hc, e1, printf_d, User_get_age, e3, e2, pure,
    String.append_assoc]
  rfl

/-! ## The claims -/

/-- C1: when every allocation succeeds, `main` constructs a `User` with `create_User (10, 1)`,
reads 10 both directly (`u->age`) and through `User_get_age (u)`, and returns 0 in the state
the constructor left, with exactly the two lines `10` and `10` appended to standard output and
nothing written to standard error. -/
theorem main_prints_age_twice (w : World) (h : ∀ k, w.oracle k = true) :
    ∃ u w1, create_User 10 1 w = Res.ret u w1 ∧
      load_int u (memberIndex User_members "age") w1 = Res.ret 10 w1 ∧
      User_get_age u w1 = Res.ret 10 w1 ∧
      main w = Res.ret 0 { w1 with out := w.out ++ "10\n10\n" } ∧
      w1.err = w.err := by
  obtain ⟨w1, hc, hh, _, ho, he, _⟩ := create_User_ret 10 1 w (h w.nalloc)
  refine ⟨w.nalloc + 1, w1, hc, load_int_age w1 _ _ 10 hh, load_int_age w1 _ _ 10 hh, ?_, he⟩
  rw [main_of_create_User w w1 _ _ hc hh, ho]

theorem main_prints_age_twice_witness :
    (∀ k, (World.start (fun _ => true)).oracle k = true) ∧
    ∃ u w1, create_User 10 1 (World.start (fun _ => true)) = Res.ret u w1 ∧
      load_int u (memberIndex User_members "age") w1 = Res.ret 10 w1 ∧
      User_get_age u w1 = Res.ret 10 w1 ∧
      main (World.start (fun _ => true))
        = Res.ret 0 { w1 with out := (World.start (fun _ => true)).out ++ "10\n10\n" } ∧
      w1.err = (World.start (fun _ => true)).err :=
  ⟨fun _ => rfl, main_prints_age_twice (World.start (fun _ => true)) (fun _ => rfl)⟩

/-- C2: for all ints `age` and `a`, when the instance allocation succeeds, `create_User (age, a)`
returns an instance on which `User_get_age` returns `age`, and so does the direct read of the
member `age`. -/
theorem User_get_age_create_User (age a : Int) (w : World) (h : w.oracle w.nalloc = true) :
    ∃ u w1, create_User age a w = Res.ret u w1 ∧
      User_get_age u w1 = Res.ret age w1 ∧
      load_int u (memberIndex User_members "age") w1 = Res.ret age w1 := by
  obtain ⟨w1, hc, hh, _⟩ := create_User_ret age a w h
  exact ⟨w.nalloc + 1, w1, hc, load_int_age w1 _ _ age hh, load_int_age w1 _ _ age hh⟩

theorem User_get_age_create_User_witness :
    (World.start (fun _ => true)).oracle (World.start (fun _ => true)).nalloc = true ∧
    ∃ u w1, create_User (-7) 3 (World.start (fun _ => true)) = Res.ret u w1 ∧
      User_get_age u w1 = Res.ret (-7) w1 ∧
      load_int u (memberIndex User_members "age") w1 = Res.ret (-7) w1 :=
  ⟨rfl, User_get_age_create_User (-7) 3 (World.start (fun _ => true)) rfl⟩

/-- C3: at the failing input (instance allocation succeeds, vtable-array allocation fails) both
constructors return an instance whose vtable pointer is null, with nothing written to standard
error and without terminating the program. -/
theorem constructors_return_null_vtable :
    (∃ w1, create_Object 10 (World.start (fun k => k == 0)) = Res.ret 1 w1 ∧
      w1.heap 1 = some [Cell.ptr NULL] ∧ w1.err = "") ∧
    (∃ w1, create_User 10 1 (World.start (fun k => k == 0)) = Res.ret 1 w1 ∧
      w1.heap 1 = some [Cell.ptr NULL, Cell.int 10] ∧ w1.err = "") :=
  ⟨⟨_, rfl, rfl, rfl⟩, ⟨_, rfl, rfl, rfl⟩⟩

/-- C4: if the instance allocation fails, `create_Object` (respectively `create_User`) appends
exactly its diagnostic line to standard error and terminates the program with status 1; the
only memory action is the failed `malloc` (no further allocation, no member write, heap and
standard output untouched); and no constructor ever returns a null instance. -/
theorem instance_allocation_failure_fatal (age a : Int) (w : World) :
    (w.oracle w.nalloc = false →
      create_Object age w =
        Res.exit 1 { w with nalloc := w.nalloc + 1,
                            err := w.err ++ "Memory allocation failed for Object\n",
                            trace := w.trace ++ [Event.malloc sizeof_Object NULL] } ∧
      create_User age a w =
        Res.exit 1 { w with nalloc := w.nalloc + 1,
                            err := w.err ++ "Memory allocation failed for User\n",
                            trace := w.trace ++ [Event.malloc sizeof_User NULL] }) ∧
    (∀ p w1, create_Object age w = Res.ret p w1 → p ≠ NULL) ∧
    (∀ p w1, create_User age a w = Res.ret p w1 → p ≠ NULL) := by
  refine ⟨fun h => ⟨create_Object_exit age w h, create_User_exit age a w h⟩, ?_, ?_⟩
  · intro p w1 hr
    cases h : w.oracle w.nalloc
    · rw [create_Object_exit age w h] at hr
      cases hr
    · obtain ⟨w2, hc, _⟩ := create_Object_ret age w h
      rw [hc] at hr
      cases hr
      simp [NULL]
  · intro p w1 hr
    cases h : w.oracle w.nalloc
    · rw [create_User_exit age a w h] at hr
      cases hr
    · obtain ⟨w2, hc, _⟩ := create_User_ret age a w h
      rw [hc] at hr
      cases hr
      simp [NULL]

theorem instance_allocation_failure_fatal_witness :
    (World.start (fun _ => false)).oracle (World.start (fun _ => false)).nalloc = false ∧
    (∃ w1, create_Object 10 (World.start (fun _ => false)) = Res.exit 1 w1 ∧
      w1.err = "Memory allocation failed for Object\n" ∧ w1.out = "" ∧
      w1.trace = [Event.malloc 1 NULL]) ∧
    (∃ w1, create_User 10 1 (World.start (fun _ => false)) = Res.exit 1 w1 ∧
      w1.err = "Memory allocation failed for User\n" ∧ w1.out = "" ∧
      w1.trace = [Event.malloc 2 NULL]) ∧
    (1 : Addr) ≠ NULL :=
  ⟨rfl,
   ⟨_, ((instance_allocation_failure_fatal 10 1 (World.start (fun _ => false))).1 rfl).1,
     rfl, rfl, rfl⟩,
   ⟨_, ((instance_allocation_failure_fatal 10 1 (World.start (fun _ => false))).1 rfl).2,
     rfl, rfl, rfl⟩,
   (instance_allocation_failure_fatal 10 1 (World.start (fun _ => true))).2.2 1 _ rfl⟩

/-- C5, as stated, fails: with all allocations succeeding, the instance `create_Object (7)`
returns holds only a vtable pointer, no cell with 7, and is the instance `create_Object (8)`
returns; the instance `create_User (10, 1)` returns holds no cell with 1 and is the instance
`create_User (10, 2)` returns. -/
theorem parameters_without_member_not_stored :
    (∃ w1, create_Object 7 (World.start (fun _ => true)) = Res.ret 1 w1 ∧
      w1.heap 1 = some [Cell.ptr 2] ∧ Cell.int 7 ∉ [Cell.ptr 2] ∧
      create_Object 8 (World.start (fun _ => true)) = Res.ret 1 w1) ∧
    (∃ w1, create_User 10 1 (World.start (fun _ => true)) = Res.ret 1 w1 ∧
      w1.heap 1 = some [Cell.ptr 2, Cell.int 10] ∧ Cell.int 1 ∉ [Cell.ptr 2, Cell.int 10] ∧
      create_User 10 2 (World.start (fun _ => true)) = Res.ret 1 w1) :=
  ⟨⟨_, rfl, rfl, by decide, rfl⟩, ⟨_, rfl, rfl, by decide, rfl⟩⟩

/-- C5, amended: a constructor parameter with a same-named member in the struct is stored in
that member: `create_User (age, a)` stores `age` in the member `age`.  `struct Object` has no
member `age` and `struct User` no member `a`; the returned `Object` holds only its vtable
pointer, the returned `User` only its vtable pointer and `age`. -/
theorem constructors_store_parameters_with_member (age a : Int) (w : World)
    (h : w.oracle w.nalloc = true) :
    (∃ u w1, create_Object age w = Res.ret u w1 ∧ w1.heap u = some [Cell.ptr (vtablePtr w)]) ∧
    (∃ u w1, create_User age a w = Res.ret u w1 ∧
      w1.heap u = some [Cell.ptr (vtablePtr w), Cell.int age] ∧
      load u (memberIndex User_members "age") w1 = Res.ret (Cell.int age) w1) ∧
    memberIndex Object_members "age" = Object_members.length ∧
    memberIndex User_members "a" = User_members.length := by
  obtain ⟨w1, hc, hh, _⟩ := create_Object_ret age w h
  obtain ⟨w2, hc2, hh2, _⟩ := create_User_ret age a w h
  refine ⟨⟨_, w1, hc, hh⟩, ⟨_, w2, hc2, hh2, ?_⟩, by decide, by decide⟩
  simp [load, hh2, memberIndex, User_members, List.findIdx_cons]

theorem constructors_store_parameters_with_member_witness :
    (World.start (fun _ => true)).oracle (World.start (fun _ => true)).nalloc = true ∧
    (∃ u w1, create_Object 7 (World.start (fun _ => true)) = Res.ret u w1 ∧
      w1.heap u = some [Cell.ptr (vtablePtr (World.start (fun _ => true)))]) ∧
    (∃ u w1, create_User 7 3 (World.start (fun _ => true)) = Res.ret u w1 ∧
      w1.heap u = some [Cell.ptr (vtablePtr (World.start (fun _ => true))), Cell.int 7] ∧
      load u (memberIndex User_members "age") w1 = Res.ret (Cell.int 7) w1) ∧
    memberIndex Object_members "age" = Object_members.length ∧
    memberIndex User_members "a" = User_members.length :=
  ⟨rfl, constructors_store_parameters_with_member 7 3 (World.start (fun _ => true)) rfl⟩

/-- C6, as stated, fails: with all allocations succeeding, the array installed by
`create_Object` and by `create_User` has 16 slots although neither class has a virtual method,
and no slot holds a function reference: all are indeterminate. -/
theorem vtable_array_sixteen_indeterminate_slots :
    (∃ w1, create_Object 10 (World.start (fun _ => true)) = Res.ret 1 w1 ∧
      w1.heap 1 = some [Cell.ptr 2] ∧ w1.heap 2 = some (List.replicate 16 Cell.indet) ∧
      (List.replicate 16 Cell.indet).length ≠ Object_slots.length ∧
      (List.replicate 16 Cell.indet).any Cell.isFn = false) ∧
    (∃ w1, create_User 10 1 (World.start (fun _ => true)) = Res.ret 1 w1 ∧
      w1.heap 1 = some [Cell.ptr 2, Cell.int 10] ∧
      w1.heap 2 = some (List.replicate 16 Cell.indet) ∧
      (List.replicate 16 Cell.indet).length ≠ User_slots.length ∧
      (List.replicate 16 Cell.indet).any Cell.isFn = false) :=
  ⟨⟨_, rfl, rfl, rfl, by decide, by decide⟩, ⟨_, rfl, rfl, rfl, by decide, by decide⟩⟩

/-- C6, amended: each constructor requests a vtable array of a fixed 16 slots, whatever the
number of virtual methods of its class, and writes none of them: when both allocations succeed,
the array installed in the returned instance has exactly 16 slots, all indeterminate, and the
only writes of the constructor go to members of the instance itself. -/
theorem constructors_allocate_fixed_vtable (age a : Int) (w : World)
    (h1 : w.oracle w.nalloc = true) (h2 : w.oracle (w.nalloc + 1) = true) :
    (∃ u vt w1, create_Object age w = Res.ret u w1 ∧ w1.heap u = some [Cell.ptr vt] ∧
      vt ≠ NULL ∧ vt ≠ u ∧ w1.heap vt = some (List.replicate 16 Cell.indet) ∧
      w1.trace = w.trace ++ [Event.malloc sizeof_Object u, Event.malloc 16 vt,
        Event.store u 0 (Cell.ptr vt)]) ∧
    (∃ u vt w1, create_User age a w = Res.ret u w1 ∧
      w1.heap u = some [Cell.ptr vt, Cell.int age] ∧
      vt ≠ NULL ∧ vt ≠ u ∧ w1.heap vt = some (List.replicate 16 Cell.indet) ∧
      w1.trace = w.trace ++ [Event.malloc sizeof_User u, Event.malloc 16 vt,
        Event.store u 0 (Cell.ptr vt), Event.store u 1 (Cell.int age)]) := by
  have hv : vtablePtr w = w.nalloc + 2 := by simp [vtablePtr, h2]
  have hn : vtablePtr w ≠ NULL := by simp [hv, NULL]
  obtain ⟨w1, hc, hh, ha, _, _, ht⟩ := create_Object_ret age w h1
  obtain ⟨w2, hc2, hh2, ha2, _, _, ht2⟩ := create_User_ret age a w h1
  exact ⟨⟨_, _, w1, hc, hh, hn, by simp [hv], ha hn, ht⟩,
    ⟨_, _, w2, hc2, hh2, hn, by simp [hv], ha2 hn, ht2⟩⟩

theorem constructors_allocate_fixed_vtable_witness :
    (World.start (fun _ => true)).oracle (World.start (fun _ => true)).nalloc = true ∧
    (World.start (fun _ => true)).oracle ((World.start (fun _ => true)).nalloc + 1) = true ∧
    (∃ u vt w1, create_Object 10 (World.start (fun _ => true)) = Res.ret u w1 ∧
      w1.heap u = some [Cell.ptr vt] ∧
      vt ≠ NULL ∧ vt ≠ u ∧ w1.heap vt = some (List.replicate 16 Cell.indet) ∧
      w1.trace = (World.start (fun _ => true)).trace ++ [Event.malloc sizeof_Object u,
        Event.malloc 16 vt, Event.store u 0 (Cell.ptr vt)]) ∧
    (∃ u vt w1, create_User 10 1 (World.start (fun _ => true)) = Res.ret u w1 ∧
      w1.heap u = some [Cell.ptr vt, Cell.int 10] ∧
      vt ≠ NULL ∧ vt ≠ u ∧ w1.heap vt = some (List.replicate 16 Cell.indet) ∧
      w1.trace = (World.start (fun _ => true)).trace ++ [Event.malloc sizeof_User u,
        Event.malloc 16 vt, Event.store u 0 (Cell.ptr vt), Event.store u 1 (Cell.int 10)]) :=
  ⟨rfl, rfl, constructors_allocate_fixed_vtable 10 1 (World.start (fun _ => true)) rfl rfl⟩

/-- C7: in `struct Object` and in `struct User` the first member is the vtable pointer and the
rest is exactly the class's resolved fields in order (`Object`: none; `User`: the fields of
`Object` followed by `age`); the members of `Object` are an initial segment of the members of
`User`, and every member of `Object` has the same position in both structs. -/
theorem struct_layout_compatible :
    Object_members = vtableMember :: Object_fields ∧
    User_members = vtableMember :: User_fields ∧
    Object_fields = [] ∧
    User_fields = Object_fields ++ [("age", CType.int)] ∧
    Object_members <+: User_members ∧
    Object_members.map (fun m => memberIndex User_members m.1)
      = Object_members.map (fun m => memberIndex Object_members m.1) ∧
    User_members.take Object_members.length = Object_members := by
  refine ⟨rfl, rfl, rfl, rfl, ⟨[("age", CType.int)], rfl⟩, by decide, rfl⟩

/-- C8: `User_get_age` returns the `age` member whatever the vtable member holds and whatever
the rest of the heap is: on two instances with the same `age`, in any two states, it returns
the same value and changes nothing. -/
theorem User_get_age_ignores_vtable (w1 w2 : World) (p1 p2 : Addr) (vt1 vt2 : Cell) (v : Int)
    (h1 : w1.heap p1 = some [vt1, Cell.int v]) (h2 : w2.heap p2 = some [vt2, Cell.int v]) :
    User_get_age p1 w1 = Res.ret v w1 ∧ User_get_age p2 w2 = Res.ret v w2 :=
  ⟨load_int_age w1 p1 vt1 v h1, load_int_age w2 p2 vt2 v h2⟩

theorem User_get_age_ignores_vtable_witness :
    (loneUser (Cell.ptr NULL)).heap 1 = some [Cell.ptr NULL, Cell.int 5] ∧
    (loneUser Cell.indet).heap 1 = some [Cell.indet, Cell.int 5] ∧
    User_get_age 1 (loneUser (Cell.ptr NULL)) = Res.ret 5 (loneUser (Cell.ptr NULL)) ∧
    User_get_age 1 (loneUser Cell.indet) = Res.ret 5 (loneUser Cell.indet) :=
  ⟨rfl, rfl, User_get_age_ignores_vtable (loneUser (Cell.ptr NULL)) (loneUser Cell.indet) 1 1
    (Cell.ptr NULL) Cell.indet 5 rfl rfl⟩

/-- C9: `create_User` ignores its second parameter: for every `age`, all `a1`, `a2` and every
state (hence the same allocation outcomes), the two calls have the same result: the same
termination behaviour, the same returned pointer and the same final state. -/
theorem create_User_ignores_second_parameter (age a1 a2 : Int) (w : World) :
    create_User age a1 w = create_User age a2 w :=
  rfl

/-- C10: the instance allocation alone decides what `main` does: if it succeeds, `main` appends
the two lines `10` and `10` to standard output and returns 0, whatever the outcome of the
vtable-array allocation; if it fails, `main` writes nothing to standard output and the program
terminates with exit status 1. -/
theorem main_decided_by_instance_allocation (w : World) :
    (w.oracle w.nalloc = true →
      ∃ w2, main w = Res.ret 0 w2 ∧ w2.out = w.out ++ "10\n10\n") ∧
    (w.oracle w.nalloc = false →
      ∃ w2, main w = Res.exit 1 w2 ∧ w2.out = w.out) := by
  constructor
  · intro h
    obtain ⟨w1, hc, hh, _, ho, _⟩ := create_User_ret 10 1 w h
    exact ⟨_, main_of_create_User w w1 _ _ hc hh, by simp [ho]⟩
  · intro h
    have hm : main w =
        Res.exit 1 { w with nalloc := w.nalloc + 1,
                            err := w.err ++ "Memory allocation failed for User\n",
                            trace := w.trace ++ [Event.malloc sizeof_User NULL] } := by
      simp only [main, bind, Prog.bind, create_User_exit 10 1 w h]
    exact ⟨_, hm, rfl⟩

theorem main_decided_by_instance_allocation_witness :
    (∃ w2, main (World.start (fun _ => true)) = Res.ret 0 w2 ∧ w2.out = "" ++ "10\n10\n") ∧
    (∃ w2, main (World.start (fun k => k == 0)) = Res.ret 0 w2 ∧ w2.out = "" ++ "10\n10\n") ∧
    (∃ w2, main (World.start (fun _ => false)) = Res.exit 1 w2 ∧ w2.out = "") :=
  ⟨(main_decided_by_instance_allocation (World.start (fun _ => true))).1 rfl,
   (main_decided_by_instance_allocation (World.start (fun k => k == 0))).1 rfl,
   (main_decided_by_instance_allocation (World.start (fun _ => false))).2 rfl⟩

end GeneratedCode
